import Mathlib

/-!
Shallow embedding of the Sia renter "bubble" engine, the directory metadata
aggregation code given in `src/unnamed/part_000` (package `renter`).

Conventions of the embedding:
* `float64` health / redundancy values are modelled as rationals (`ℚ`); the
  code only ever compares them and takes max / min, never adds them, and the
  health model guarantees finite, NaN-free values (spec §4.3), so the ordered
  field `ℚ` is a faithful model of the order structure actually used.
* `uint64` counters are modelled as `Nat` with every addition reduced
  `% 2 ^ 64`, mirroring Go wrap-around arithmetic.
* `time.Time` is modelled as `Int`; the Go zero time is `0`, `After` is `>`
  and `Before` is `<`.
* External collaborators that the source calls but whose bodies are not part
  of the given source (the file probe, the file / directory stores, `ReadDir`,
  `saveBubbleUpdates`, the stop channel) are modelled as oracle inputs: each
  call site receives the collaborator's outcome as an explicit argument.
-/

set_option maxRecDepth 40000

namespace Sia

/-- Virtual sia path, modelled as the list of path components from the root.
Modelled from the spec: the path model (spec §4.1, `modules.SiaPath`) is not
part of the given source; `[]` is the root, the parent drops the last
component, and paths compare equal iff they denote the same location. -/
abbrev SiaPath := List String

/-- `siaPath.IsRoot()` of the path model (spec §4.1). -/
def SiaPath.IsRoot (p : SiaPath) : Bool := p.isEmpty

/-- `siaPath.Dir()`, the parent directory (spec §4.1); total here because the
driver only calls it on non-root paths. -/
def SiaPath.Dir (p : SiaPath) : SiaPath := p.dropLast

/-- bubbleStatus indicates the status of a bubble being executed on a
directory (source lines 18-29).  `bubbleError` is the Go zero value of the
type. -/
inductive bubbleStatus
  | bubbleError
  | bubbleInit
  | bubbleActive
  | bubblePending
deriving DecidableEq

open bubbleStatus

/-- The renter's `bubbleUpdates` map.  The source keys it by
`siaPath.String()`; since stringify is injective (spec §3, §4.1) we key by the
path itself. -/
def BubbleMap : Type := SiaPath → Option bubbleStatus

/-- Store a status for a path in the `bubbleUpdates` map
(`r.bubbleUpdates[siaPathStr] = status`). -/
def mapUpdate (m : BubbleMap) (k : SiaPath) (v : bubbleStatus) : BubbleMap :=
  fun q => if q = k then some v else m q

/-- Remove a path from the `bubbleUpdates` map
(`delete(r.bubbleUpdates, siaPathStr)`). -/
def mapDelete (m : BubbleMap) (k : SiaPath) : BubbleMap :=
  fun q => if q = k then none else m q

/-- Result of `managedBubbleNeeded`: the updated `bubbleUpdates` map, the
returned bool, and whether the `invalid bubble status` error was returned. -/
structure NeededResult where
  map : BubbleMap
  needed : Bool
  err : Bool

/-- managedBubbleNeeded checks if a bubble is needed for a directory, updates
the renter's bubbleUpdates map and returns a bool (source lines 33-58).  The
map mutations are written exactly as in the source: an absent key is first
stored as `bubbleInit`, then the switch on the (pre-insertion) status runs. -/
def managedBubbleNeeded (m : BubbleMap) (p : SiaPath) : NeededResult :=
  let status := (m p).getD bubbleInit
  let m1 : BubbleMap := if (m p).isNone then mapUpdate m p bubbleInit else m
  match status with
  | bubblePending => ⟨m1, false, false⟩
  | bubbleActive => ⟨mapUpdate m1 p bubblePending, false, false⟩
  | bubbleInit => ⟨mapUpdate m1 p bubbleActive, true, false⟩
  | bubbleError => ⟨m1, false, true⟩

/-- Errors `managedCompleteBubbleUpdate` can return: the
`invalid bubble status` error of the default branch, or a failure of
`saveBubbleUpdates`. -/
inductive CompleteErr
  | invalidStatus
  | saveFailed
deriving DecidableEq

/-- Result of `managedCompleteBubbleUpdate`: the updated map, whether a fresh
`threadedBubbleMetadata(siaPath)` run was scheduled (the deferred `go` of the
`bubblePending` branch), whether `saveBubbleUpdates` was invoked, and the
returned error. -/
structure CompleteResult where
  map : BubbleMap
  scheduled : Bool
  saved : Bool
  err : Option CompleteErr

/-- managedCompleteBubbleUpdate completes the bubble update and updates and/or
removes it from the renter's bubbleUpdates (source lines 246-272).
`saveBubbleUpdates` is not part of the given source; modelled from the spec
(coordinator persistence, §6) as a disk write whose success is the oracle
`saveOk`.  In the `bubblePending` branch the rebubble is scheduled by a
`defer`, hence it happens even when the save fails. -/
def managedCompleteBubbleUpdate (saveOk : Bool) (m : BubbleMap) (p : SiaPath) :
    CompleteResult :=
  match m p with
  | none => ⟨m, false, false, none⟩
  | some bubblePending =>
      ⟨mapUpdate m p bubbleInit, true, true,
        if saveOk then none else some CompleteErr.saveFailed⟩
  | some bubbleActive =>
      ⟨mapDelete m p, false, true,
        if saveOk then none else some CompleteErr.saveFailed⟩
  | some bubbleInit => ⟨m, false, false, some CompleteErr.invalidStatus⟩
  | some bubbleError => ⟨m, false, false, some CompleteErr.invalidStatus⟩

/-- A coordinator call on a fixed path: a `managedBubbleNeeded` call or a
`managedCompleteBubbleUpdate` call (with the outcome of its save). -/
inductive CoordOp
  | needed
  | complete (saveOk : Bool)
deriving DecidableEq

/-- Whether the call is a `managedBubbleNeeded` call. -/
def CoordOp.isNeeded : CoordOp → Bool
  | .needed => true
  | .complete _ => false

/-- Apply one coordinator call for path `p`; the `Bool` is `true` exactly when
the call was a `managedBubbleNeeded` that returned `true`. -/
def applyOp (m : BubbleMap) (p : SiaPath) : CoordOp → BubbleMap × Bool
  | .needed => let r := managedBubbleNeeded m p; (r.map, r.needed)
  | .complete s => ((managedCompleteBubbleUpdate s m p).map, false)

/-- Run a sequence of coordinator calls for path `p`, returning the final
`bubbleUpdates` map. -/
def coordRun (m : BubbleMap) (p : SiaPath) : List CoordOp → BubbleMap
  | [] => m
  | op :: ops => coordRun (applyOp m p op).1 p ops

/-- Number of `managedBubbleNeeded` calls in the sequence that return
`true`. -/
def grantCount (m : BubbleMap) (p : SiaPath) : List CoordOp → Nat
  | [] => 0
  | op :: ops =>
      let r := applyOp m p op
      (if r.2 then 1 else 0) + grantCount r.1 p ops

/-- Go `uint64` addition: wrap-around modulo `2 ^ 64`. -/
def u64add (a b : Nat) : Nat := (a + b) % 2 ^ 64

/-- `math.MaxFloat64`, the "no redundancy seen yet" sentinel, as an exact
rational. -/
def maxFloat64 : ℚ := ((2 ^ 1024 - 2 ^ 971 : Nat) : ℚ)

/-- `siadir.DefaultDirHealth`.  Modelled from the spec: the `siadir` package
is not part of the given source; spec §6 describes it as the domain "healthy"
value and §3 as `0 = perfect`, so it is `0`. -/
def DefaultDirHealth : ℚ := 0

/-- `siafile.RemoteRepairDownloadThreshold`.  Modelled from the spec: the
`siafile` package is not part of the given source; the claims settled here do
not depend on the concrete value, only on the comparison against it, so any
fixed rational serves.  We use `1 / 4`. -/
def RemoteRepairDownloadThreshold : ℚ := mkRat 1 4

/-- `siafile.BubbledMetadata`, the value object the per-file probe returns
(spec §3). -/
structure BubbledMetadata where
  Health : ℚ
  LastHealthCheckTime : Int
  ModTime : Int
  NumStuckChunks : Nat
  Redundancy : ℚ
  Size : Nat
  StuckHealth : ℚ
deriving DecidableEq

/-- The Go zero value `siafile.BubbledMetadata{}` (declared per loop
iteration at source line 97 and left at its zero value for subdirectory
children). -/
def zeroBubbledMetadata : BubbledMetadata :=
  ⟨0, 0, 0, 0, 0, 0, 0⟩

/-- `siadir.Metadata` (spec §3), field for field. -/
structure SiaDirMetadata where
  AggregateHealth : ℚ
  AggregateNumFiles : Nat
  AggregateSize : Nat
  Health : ℚ
  LastHealthCheckTime : Int
  MinRedundancy : ℚ
  ModTime : Int
  NumFiles : Nat
  NumStuckChunks : Nat
  NumSubDirs : Nat
  StuckHealth : ℚ
deriving DecidableEq

/-- The Go zero value `siadir.Metadata{}`, returned by the abort paths of the
calculator. -/
def zeroSiaDirMetadata : SiaDirMetadata :=
  ⟨0, 0, 0, 0, 0, 0, 0, 0, 0, 0, 0⟩

/-- The default metadata the calculator starts from (source lines 65-77);
`now` is the `time.Now()` stored into `LastHealthCheckTime`. -/
def defaultCalcMetadata (now : Int) : SiaDirMetadata where
  AggregateHealth := DefaultDirHealth
  AggregateNumFiles := 0
  AggregateSize := 0
  Health := DefaultDirHealth
  LastHealthCheckTime := now
  MinRedundancy := maxFloat64
  ModTime := 0
  NumFiles := 0
  NumStuckChunks := 0
  NumSubDirs := 0
  StuckHealth := DefaultDirHealth

/-- One entry of the `ioutil.ReadDir` listing, pre-classified the way the
loop body classifies it (source lines 98-150), together with the outcome of
the external call the loop makes for it:

* `siaFile o` — the entry name carries `modules.SiaFileExtension`; `o` is the
  outcome of `siaPath.Join` followed by `managedCalculateAndUpdateFileMetadata`
  (the per-file probe, whose body performs store and disk I/O): `some fm` on
  success, `none` on failure of either call (both failures `continue`).
* `subDir o` — the entry is a directory; `o` is the outcome of `siaPath.Join`
  followed by `managedDirectoryMetadata`: `some dm` on success, `none` on
  failure of either call (both failures return the error).
* `other` — neither a sia file nor a directory; ignored. -/
inductive DirEntry
  | siaFile (probe : Option BubbledMetadata)
  | subDir (read : Option SiaDirMetadata)
  | other
deriving DecidableEq

/-- Whether the renter's thread-group stop channel has fired by the time the
loop reaches entry index `i`: `stopAt = some k` means the channel fires just
before entry `k` is processed (and stays fired), `none` means no shutdown. -/
def stopFired : Option Nat → Nat → Bool
  | none, _ => false
  | some k, i => decide (k ≤ i)

/-- Errors of `managedCalculateDirectoryMetadata`: the `ioutil.ReadDir`
failure, or a subdirectory child whose `Join` / `managedDirectoryMetadata`
failed.  The shutdown return carries a nil error in the source (the `err`
variable is nil at that point), so it has no constructor here. -/
inductive CalcErr
  | readDirFailed
  | subDirFailed
deriving DecidableEq

/-- How the calculator loop ended: fell off the listing normally (the
post-loop sanity checks still run), or executed a `return` inside the loop
with the given metadata value and error. -/
inductive CalcOutcome
  | completed (md : SiaDirMetadata)
  | earlyReturn (md : SiaDirMetadata) (err : Option CalcErr)
deriving DecidableEq

/-- `if fileMetadata.Health > metadata.Health` (source lines 152-154). -/
def updHealth (md : SiaDirMetadata) (h : ℚ) : SiaDirMetadata :=
  if h > md.Health then { md with Health := h } else md

/-- `if aggregateHealth > metadata.AggregateHealth` (source lines 156-158). -/
def updAggregateHealth (md : SiaDirMetadata) (ah : ℚ) : SiaDirMetadata :=
  if ah > md.AggregateHealth then { md with AggregateHealth := ah } else md

/-- `if stuckHealth > metadata.StuckHealth` (source lines 160-162). -/
def updStuckHealth (md : SiaDirMetadata) (sh : ℚ) : SiaDirMetadata :=
  if sh > md.StuckHealth then { md with StuckHealth := sh } else md

/-- `if redundancy < metadata.MinRedundancy` (source lines 164-166). -/
def updMinRedundancy (md : SiaDirMetadata) (rd : ℚ) : SiaDirMetadata :=
  if rd < md.MinRedundancy then { md with MinRedundancy := rd } else md

/-- `if modTime.After(metadata.ModTime)` (source lines 168-170). -/
def updModTime (md : SiaDirMetadata) (mt : Int) : SiaDirMetadata :=
  if mt > md.ModTime then { md with ModTime := mt } else md

/-- `metadata.NumStuckChunks += numStuckChunks` (source lines 172 and 178). -/
def addNumStuckChunks (md : SiaDirMetadata) (ns : Nat) : SiaDirMetadata :=
  { md with NumStuckChunks := u64add md.NumStuckChunks ns }

/-- `if lastHealthCheckTime.Before(metadata.LastHealthCheckTime)` (source
lines 175-177). -/
def updLastHealthCheckTime (md : SiaDirMetadata) (lt : Int) : SiaDirMetadata :=
  if lt < md.LastHealthCheckTime then { md with LastHealthCheckTime := lt } else md

/-- The loop body tail shared by file and subdirectory children (source lines
151-178), the same sequence of conditional updates as the source.
`fileMetadataHealth` is `fileMetadata.Health`: the probed health for a file
child, and the zero value `0` for a subdirectory child (the `fileMetadata`
variable is declared afresh each iteration and never assigned in the
subdirectory branch).  Note `NumStuckChunks` is accumulated twice, exactly as
in the source (lines 172 and 178). -/
def foldShared (md : SiaDirMetadata) (fileMetadataHealth aggregateHealth stuckHealth redundancy : ℚ)
    (numStuckChunks : Nat) (lastHealthCheckTime modTime : Int) : SiaDirMetadata :=
  let md := updHealth md fileMetadataHealth
  let md := updAggregateHealth md aggregateHealth
  let md := updStuckHealth md stuckHealth
  let md := updMinRedundancy md redundancy
  let md := updModTime md modTime
  let md := addNumStuckChunks md numStuckChunks
  let md := updLastHealthCheckTime md lastHealthCheckTime
  addNumStuckChunks md numStuckChunks

/-- The file-child half of the loop body (source lines 100-124 followed by the
shared tail): set the per-child locals from the probed metadata, bump
`NumFiles`, `AggregateNumFiles`, `AggregateSize`, then run the shared tail
with `fileMetadata = fm`. -/
def foldFile (md : SiaDirMetadata) (fm : BubbledMetadata) : SiaDirMetadata :=
  let md := { md with
    NumFiles := u64add md.NumFiles 1
    AggregateNumFiles := u64add md.AggregateNumFiles 1
    AggregateSize := u64add md.AggregateSize fm.Size }
  foldShared md fm.Health fm.Health fm.StuckHealth fm.Redundancy
    fm.NumStuckChunks fm.LastHealthCheckTime fm.ModTime

/-- The subdirectory-child half of the loop body (source lines 125-146
followed by the shared tail): set the per-child locals from the stored
subdirectory metadata (`aggregateHealth = max(dm.AggregateHealth, dm.Health)`),
bump `AggregateNumFiles`, `AggregateSize`, `NumSubDirs`, then run the shared
tail with `fileMetadata` still the zero value. -/
def foldDir (md : SiaDirMetadata) (dm : SiaDirMetadata) : SiaDirMetadata :=
  let md := { md with
    AggregateNumFiles := u64add md.AggregateNumFiles dm.AggregateNumFiles
    AggregateSize := u64add md.AggregateSize dm.AggregateSize
    NumSubDirs := u64add md.NumSubDirs 1 }
  foldShared md zeroBubbledMetadata.Health (max dm.AggregateHealth dm.Health)
    dm.StuckHealth dm.MinRedundancy dm.NumStuckChunks dm.LastHealthCheckTime dm.ModTime

/-- The `for _, fi := range fileinfos` loop of
`managedCalculateDirectoryMetadata` (source lines 86-179).  `i` is the index
of the next entry, used only to interrogate the stop channel.  The shutdown
check returns `siadir.Metadata{}` together with the `err` variable, which is
nil there — reproduced faithfully as `earlyReturn zeroSiaDirMetadata none`. -/
def calcLoop (stopAt : Option Nat) : Nat → SiaDirMetadata → List DirEntry → CalcOutcome
  | _, md, [] => CalcOutcome.completed md
  | i, md, e :: rest =>
      if stopFired stopAt i then CalcOutcome.earlyReturn zeroSiaDirMetadata none
      else
        match e with
        | DirEntry.siaFile none => calcLoop stopAt (i + 1) md rest
        | DirEntry.siaFile (some fm) => calcLoop stopAt (i + 1) (foldFile md fm) rest
        | DirEntry.subDir none =>
            CalcOutcome.earlyReturn zeroSiaDirMetadata (some CalcErr.subDirFailed)
        | DirEntry.subDir (some dm) => calcLoop stopAt (i + 1) (foldDir md dm) rest
        | DirEntry.other => calcLoop stopAt (i + 1) md rest

/-- managedCalculateDirectoryMetadata calculates the new values for the
directory's metadata (source lines 63-194).  `entries` is the outcome of
`ioutil.ReadDir` (`none` = failure), `stopAt` the stop-channel oracle, `now`
the value of `time.Now()` (used both for the starting
`LastHealthCheckTime` and the post-loop `ModTime` sanity check).  Returns the
metadata value and the error, as the Go function does. -/
def managedCalculateDirectoryMetadata (now : Int) (entries : Option (List DirEntry))
    (stopAt : Option Nat) : SiaDirMetadata × Option CalcErr :=
  match entries with
  | none => (zeroSiaDirMetadata, some CalcErr.readDirFailed)
  | some es =>
      match calcLoop stopAt 0 (defaultCalcMetadata now) es with
      | CalcOutcome.earlyReturn md e => (md, e)
      | CalcOutcome.completed md =>
          let md := if md.ModTime = 0 then { md with ModTime := now } else md
          let md := if md.MinRedundancy = maxFloat64 then { md with MinRedundancy := 0 } else md
          (md, none)

/-- The healths of the successfully probed sia-file children of a listing, in
processing order: the values `fileMetadata.Health` takes in the file branch of
the calculator loop. -/
def probedFileHealths : List DirEntry → List ℚ
  | [] => []
  | DirEntry.siaFile (some fm) :: rest => fm.Health :: probedFileHealths rest
  | _ :: rest => probedFileHealths rest

/-- Outcome of the `os.Stat` + `IsDir` check at the top of
`managedDirectoryMetadata` (source lines 277-284). -/
inductive StatResult
  | statErr
  | notDir
  | isDir
deriving DecidableEq

/-- Outcome of `r.staticDirSet.Open(siaPath)` (directory store, spec §6):
found with the stored metadata, absent (`os.IsNotExist`), or some other
error. -/
inductive OpenDirResult
  | found (md : SiaDirMetadata)
  | notExist
  | otherErr
deriving DecidableEq

/-- Oracle environment of one `managedDirectoryMetadata` call.  `readDirLen`
is the outcome of the `ioutil.ReadDir` performed when the record is absent
(`none` = failure, `some n` = a listing with `n` entries).  `newDir` is the
outcome of `r.staticDirSet.NewSiaDir(siaPath)`; modelled from the spec
(directory store `new`, §6: creates a record with default metadata): `some md`
means the call succeeded and the fresh record stores `md`, `none` means it
failed. -/
structure DirMetaEnv where
  stat : StatResult
  openRes : OpenDirResult
  readDirLen : Option Nat
  newDir : Option SiaDirMetadata
  isRoot : Bool
deriving DecidableEq

/-- Errors of `managedDirectoryMetadata`.  `absent` is the original
`os.IsNotExist` error of the `Open` call, returned verbatim for an empty
non-root directory. -/
inductive DirMetaErr
  | statFailed
  | notADirectory
  | readDirFailed
  | absent
  | newFailed
  | openFailed
deriving DecidableEq

/-- Result of `managedDirectoryMetadata`: the returned metadata and error,
plus whether a fresh metadata record was materialized (`NewSiaDir` ran and
succeeded). -/
structure DirMetaResult where
  metadata : SiaDirMetadata
  created : Bool
  err : Option DirMetaErr
deriving DecidableEq

/-- managedDirectoryMetadata reads the directory metadata and returns the
bubble metadata (source lines 276-311). -/
def managedDirectoryMetadata (env : DirMetaEnv) : DirMetaResult :=
  match env.stat with
  | StatResult.statErr => ⟨zeroSiaDirMetadata, false, some DirMetaErr.statFailed⟩
  | StatResult.notDir => ⟨zeroSiaDirMetadata, false, some DirMetaErr.notADirectory⟩
  | StatResult.isDir =>
      match env.openRes with
      | OpenDirResult.found md => ⟨md, false, none⟩
      | OpenDirResult.otherErr => ⟨zeroSiaDirMetadata, false, some DirMetaErr.openFailed⟩
      | OpenDirResult.notExist =>
          match env.readDirLen with
          | none => ⟨zeroSiaDirMetadata, false, some DirMetaErr.readDirFailed⟩
          | some n =>
              if n = 0 ∧ env.isRoot = false then
                ⟨zeroSiaDirMetadata, false, some DirMetaErr.absent⟩
              else
                match env.newDir with
                | none => ⟨zeroSiaDirMetadata, false, some DirMetaErr.newFailed⟩
                | some fresh => ⟨fresh, true, none⟩

/-- Oracle environment of one `managedBubbleMetadata` (driver) call: the
calculator's oracles, the outcome of the driver's own
`r.staticDirSet.Open` and `siaDir.UpdateMetadata` calls, the
`saveBubbleUpdates` outcome used by the deferred completion, and whether the
two coalescing signal channels have capacity. -/
structure DriverEnv where
  now : Int
  entries : Option (List DirEntry)
  stopAt : Option Nat
  openOk : Bool
  updateOk : Bool
  saveOk : Bool
  repairChanReady : Bool
  stuckChanReady : Bool

/-- The error `managedBubbleMetadata` returns (context added by
`errors.AddContext` is modelled by the constructor tag).  The deferred
completion's own error is discarded by Go (the function's return value is
unnamed and already evaluated when the defer runs), so it does not appear
here. -/
inductive DriverErr
  | neededErr
  | calcErr (e : CalcErr)
  | openErr
  | updateErr
deriving DecidableEq

/-- Observable outcome of one `managedBubbleMetadata` call. -/
structure DriverResult where
  /-- final `bubbleUpdates` map -/
  map : BubbleMap
  /-- `managedBubbleNeeded` returned `true` and the body ran -/
  admitted : Bool
  /-- the driver's `r.staticDirSet.Open(siaPath)` call was reached -/
  openAttempted : Bool
  /-- `siaDir.UpdateMetadata(metadata)` was reached (open succeeded) -/
  updateAttempted : Bool
  /-- the root `if siaPath.IsRoot()` signal block was reached -/
  signalsEvaluated : Bool
  /-- a unit was enqueued on `repairNeeded` -/
  repairSignaled : Bool
  /-- a unit was enqueued on `stuckChunkFound` -/
  stuckSignaled : Bool
  /-- the deferred `managedCompleteBubbleUpdate(siaPath)` ran -/
  completeCalled : Bool
  /-- the error that completion returned (meaningful when it ran) -/
  completeErr : Option CompleteErr
  /-- the path whose `threadedBubbleMetadata` the deferred completion block
  scheduled with `go`, when it did -/
  scheduledParent : Option SiaPath
  /-- the driver's return value -/
  err : Option DriverErr

/-- managedBubbleMetadata calculates the updated values of a directory's
metadata, updates the siadir metadata on disk, then schedules the parent
(source lines 328-399).  Faithful control-flow notes:

* the deferred completion block (lines 339-355) is established only after the
  `managedBubbleNeeded` admission, and runs on every exit of the body after
  it, including the early `return` on a calculation error;
* inside that block, a non-nil `managedCompleteBubbleUpdate` error makes the
  block return before the parent `go` statement, so a completion failure
  suppresses the parent scheduling; the block's return value is discarded;
* a calculation error is returned immediately with directory context (line
  361): the record open / write and the root signal block are not reached;
* an open or update error is retained in `err` without returning, so the root
  signal block still runs on the computed metadata. -/
def managedBubbleMetadata (env : DriverEnv) (m : BubbleMap) (p : SiaPath) : DriverResult :=
  let nr := managedBubbleNeeded m p
  if nr.err then
    ⟨nr.map, false, false, false, false, false, false, false, none, none,
      some DriverErr.neededErr⟩
  else if nr.needed = false then
    ⟨nr.map, false, false, false, false, false, false, false, none, none, none⟩
  else
    let calcRes := managedCalculateDirectoryMetadata env.now env.entries env.stopAt
    let cr := managedCompleteBubbleUpdate env.saveOk nr.map p
    let sched : Option SiaPath :=
      if cr.err = none ∧ p.IsRoot = false then some p.Dir else none
    match calcRes.2 with
    | some ce =>
        ⟨cr.map, true, false, false, false, false, false, true, cr.err, sched,
          some (DriverErr.calcErr ce)⟩
    | none =>
        let md := calcRes.1
        let retained : Option DriverErr :=
          if env.openOk = false then some DriverErr.openErr
          else if env.updateOk = false then some DriverErr.updateErr
          else none
        let repair := p.IsRoot && decide (md.AggregateHealth ≥ RemoteRepairDownloadThreshold)
          && env.repairChanReady
        let stuck := p.IsRoot && decide (md.NumStuckChunks > 0) && env.stuckChanReady
        ⟨cr.map, true, true, env.openOk, true, repair, stuck, true, cr.err, sched,
          retained⟩

/-! ## Coordinator lemmas -/

theorem needed_true_iff (m : BubbleMap) (p : SiaPath) :
    (managedBubbleNeeded m p).needed = true ↔ (m p = none ∨ m p = some bubbleInit) := by
  rcases hm : m p with _ | s
  · simp [managedBubbleNeeded, hm]
  · cases s <;> simp [managedBubbleNeeded, hm]

theorem needed_err_of_true (m : BubbleMap) (p : SiaPath)
    (h : (managedBubbleNeeded m p).needed = true) :
    (managedBubbleNeeded m p).err = false := by
  rcases hm : m p with _ | s
  · simp [managedBubbleNeeded, hm]
  · cases s <;> simp [managedBubbleNeeded, hm] at h ⊢

theorem needed_map_active (m : BubbleMap) (p : SiaPath)
    (h : (managedBubbleNeeded m p).needed = true) :
    (managedBubbleNeeded m p).map p = some bubbleActive := by
  rcases hm : m p with _ | s
  · simp [managedBubbleNeeded, hm, mapUpdate]
  · cases s <;> simp [managedBubbleNeeded, hm, mapUpdate] at h ⊢

theorem needed_busy (m : BubbleMap) (p : SiaPath)
    (h : m p = some bubbleActive ∨ m p = some bubblePending) :
    (managedBubbleNeeded m p).needed = false ∧
      (managedBubbleNeeded m p).map p = some bubblePending := by
  rcases h with h | h <;> simp [managedBubbleNeeded, h, mapUpdate]

theorem grantCount_busy (p : SiaPath) (seg : List CoordOp) :
    ∀ m : BubbleMap, (∀ op ∈ seg, op.isNeeded = true) →
      (m p = some bubbleActive ∨ m p = some bubblePending) →
      grantCount m p seg = 0 := by
  induction seg with
  | nil => intro m _ _; rfl
  | cons op rest ih =>
      intro m hseg hm
      have hop := hseg op (by simp)
      cases op with
      | complete s => simp [CoordOp.isNeeded] at hop
      | needed =>
          have hb := needed_busy m p hm
          have hrest : grantCount (managedBubbleNeeded m p).map p rest = 0 :=
            ih (managedBubbleNeeded m p).map
              (fun o ho => hseg o (by simp [ho])) (Or.inr hb.2)
          simp [grantCount, applyOp, hb.1, hrest]

theorem grantCount_le_one (p : SiaPath) (seg : List CoordOp) :
    ∀ m : BubbleMap, (∀ op ∈ seg, op.isNeeded = true) → grantCount m p seg ≤ 1 := by
  induction seg with
  | nil => intro m _; simp [grantCount]
  | cons op rest ih =>
      intro m hseg
      have hop := hseg op (by simp)
      cases op with
      | complete s => simp [CoordOp.isNeeded] at hop
      | needed =>
          by_cases hn : (managedBubbleNeeded m p).needed = true
          · have hz : grantCount (managedBubbleNeeded m p).map p rest = 0 :=
              grantCount_busy p rest _
                (fun o ho => hseg o (by simp [ho]))
                (Or.inl (needed_map_active m p hn))
            simp [grantCount, applyOp, hn, hz]
          · have hn2 : (managedBubbleNeeded m p).needed = false := by
              revert hn; cases (managedBubbleNeeded m p).needed <;> simp
            have hr := ih (managedBubbleNeeded m p).map
              (fun o ho => hseg o (by simp [ho]))
            simpa [grantCount, applyOp, hn2] using hr

theorem applyOp_no_error (m : BubbleMap) (p : SiaPath) (op : CoordOp)
    (h : m p ≠ some bubbleError) : (applyOp m p op).1 p ≠ some bubbleError := by
  cases op with
  | needed =>
      rcases hm : m p with _ | s
      · simp [applyOp, managedBubbleNeeded, hm, mapUpdate]
      · cases s <;> simp [applyOp, managedBubbleNeeded, hm, mapUpdate]
        exact h hm
  | complete s =>
      rcases hm : m p with _ | st
      · simp [applyOp, managedCompleteBubbleUpdate, hm]
      · cases st <;>
          simp [applyOp, managedCompleteBubbleUpdate, hm, mapUpdate, mapDelete]
        exact h hm

theorem coordRun_no_error (p : SiaPath) (ops : List CoordOp) :
    ∀ m : BubbleMap, m p ≠ some bubbleError → coordRun m p ops p ≠ some bubbleError := by
  induction ops with
  | nil => intro m h; exact h
  | cons op rest ih => intro m h; exact ih _ (applyOp_no_error m p op h)

/-! ## Claim theorems: coordinator -/

/-- C3: for any interleaving of `managedBubbleNeeded` and
`managedCompleteBubbleUpdate` calls on the same path, starting from a map
without an entry for that path, at most one `managedBubbleNeeded` call returns
`true` between consecutive `managedCompleteBubbleUpdate` calls for that path
(any complete-free segment of the run grants at most once); equivalently,
`managedBubbleNeeded` returns `true` exactly when the entry was absent or in
`bubbleInit`, and it then moves the entry to `bubbleActive`. -/
theorem c3_coordinator_coalescing (m : BubbleMap) (p : SiaPath) (hm : m p = none) :
    (∀ pre seg : List CoordOp, (∀ op ∈ seg, op.isNeeded = true) →
        grantCount (coordRun m p pre) p seg ≤ 1)
  ∧ (∀ m2 : BubbleMap,
      ((managedBubbleNeeded m2 p).needed = true ↔ (m2 p = none ∨ m2 p = some bubbleInit))
    ∧ ((managedBubbleNeeded m2 p).needed = true →
        (managedBubbleNeeded m2 p).map p = some bubbleActive)) :=
  ⟨fun _pre seg hseg => grantCount_le_one p seg _ hseg,
   fun m2 => ⟨needed_true_iff m2 p, needed_map_active m2 p⟩⟩

/-- Witness for C3 at a concrete input: from the empty map, a run of two
consecutive `needed` calls grants at most once. -/
theorem c3_coordinator_coalescing_witness :
    grantCount (coordRun (fun _ => none) ["a"] []) ["a"]
      [CoordOp.needed, CoordOp.needed] ≤ 1 :=
  (c3_coordinator_coalescing (fun _ => none) ["a"] rfl).1 []
    [CoordOp.needed, CoordOp.needed] (by decide)

/-- C6: `managedCompleteBubbleUpdate` is a no-op returning nil on an absent
path; deletes the entry and persists on `bubbleActive`; moves the entry to
`bubbleInit`, schedules a fresh driver run and persists on `bubblePending`;
and returns the invalid-status error on any other state. -/
theorem c6_complete_state_cases (m : BubbleMap) (p : SiaPath) (saveOk : Bool) :
    (m p = none →
        managedCompleteBubbleUpdate saveOk m p = ⟨m, false, false, none⟩)
  ∧ (m p = some bubbleActive →
        managedCompleteBubbleUpdate saveOk m p =
          ⟨mapDelete m p, false, true,
            if saveOk then none else some CompleteErr.saveFailed⟩)
  ∧ (m p = some bubblePending →
        managedCompleteBubbleUpdate saveOk m p =
          ⟨mapUpdate m p bubbleInit, true, true,
            if saveOk then none else some CompleteErr.saveFailed⟩)
  ∧ (∀ s, m p = some s → s ≠ bubbleActive → s ≠ bubblePending →
        managedCompleteBubbleUpdate saveOk m p =
          ⟨m, false, false, some CompleteErr.invalidStatus⟩) := by
  refine ⟨fun h => ?_, fun h => ?_, fun h => ?_, fun s hs h1 h2 => ?_⟩
  · simp [managedCompleteBubbleUpdate, h]
  · simp [managedCompleteBubbleUpdate, h]
  · simp [managedCompleteBubbleUpdate, h]
  · cases s with
    | bubbleActive => exact absurd rfl h1
    | bubblePending => exact absurd rfl h2
    | bubbleInit => simp [managedCompleteBubbleUpdate, hs]
    | bubbleError => simp [managedCompleteBubbleUpdate, hs]

/-- Witness for C6 at a concrete input: completing a path in `bubbleActive`
deletes its entry and persists. -/
theorem c6_complete_state_cases_witness :
    managedCompleteBubbleUpdate true
        (fun q => if q = ["a"] then some bubbleActive else none) ["a"] =
      ⟨mapDelete (fun q => if q = ["a"] then some bubbleActive else none) ["a"],
        false, true, none⟩ :=
  (c6_complete_state_cases
      (fun q => if q = ["a"] then some bubbleActive else none) ["a"] true).2.1
    (by decide)

/-- C10, counterexample: the invalid-state error branch of
`managedCompleteBubbleUpdate` IS reachable under the coordinator's own
operations.  From the empty map, two `needed` calls put the path in
`bubblePending`, the first `complete` moves it to `bubbleInit`, and a second
`complete` then hits the default branch and returns the invalid-status
error — contradicting the claim that the invalid-state error branches of both
operations are unreachable. -/
theorem c10_counterexample :
    (managedCompleteBubbleUpdate true
        (coordRun (fun _ => none) ["a"]
          [CoordOp.needed, CoordOp.needed, CoordOp.complete true]) ["a"]).err
      = some CompleteErr.invalidStatus := by decide

/-- C10, amended: starting from a map with no entry for the path, no sequence
of `managedBubbleNeeded` / `managedCompleteBubbleUpdate` calls ever stores
`bubbleError` for the path, and consequently the invalid-state error branch of
`managedBubbleNeeded` is unreachable under the coordinator's own operations
(that of `managedCompleteBubbleUpdate` is reachable, per the
counterexample: it also fires on `bubbleInit`). -/
theorem c10_no_error_state (m : BubbleMap) (p : SiaPath) (hm : m p = none)
    (ops : List CoordOp) :
    coordRun m p ops p ≠ some bubbleError
  ∧ (managedBubbleNeeded (coordRun m p ops) p).err = false := by
  have h1 : coordRun m p ops p ≠ some bubbleError :=
    coordRun_no_error p ops m (by simp [hm])
  refine ⟨h1, ?_⟩
  rcases hm2 : coordRun m p ops p with _ | s
  · simp [managedBubbleNeeded, hm2]
  · cases s with
    | bubbleError => exact absurd hm2 h1
    | bubbleInit => simp [managedBubbleNeeded, hm2]
    | bubbleActive => simp [managedBubbleNeeded, hm2]
    | bubblePending => simp [managedBubbleNeeded, hm2]

/-- Witness for the amended C10 at a concrete input. -/
theorem c10_no_error_state_witness :
    coordRun (fun _ => none) ["a"] [CoordOp.needed] ["a"] ≠ some bubbleError :=
  (c10_no_error_state (fun _ => none) ["a"] rfl [CoordOp.needed]).1

/-! ## Calculator lemmas -/

theorem updHealth_Health (md : SiaDirMetadata) (h : ℚ) :
    (updHealth md h).Health = if h > md.Health then h else md.Health := by
  unfold updHealth; split <;> rfl

theorem updAggregateHealth_Health (md : SiaDirMetadata) (ah : ℚ) :
    (updAggregateHealth md ah).Health = md.Health := by
  unfold updAggregateHealth; split <;> rfl

theorem updStuckHealth_Health (md : SiaDirMetadata) (sh : ℚ) :
    (updStuckHealth md sh).Health = md.Health := by
  unfold updStuckHealth; split <;> rfl

theorem updMinRedundancy_Health (md : SiaDirMetadata) (rd : ℚ) :
    (updMinRedundancy md rd).Health = md.Health := by
  unfold updMinRedundancy; split <;> rfl

theorem updModTime_Health (md : SiaDirMetadata) (mt : Int) :
    (updModTime md mt).Health = md.Health := by
  unfold updModTime; split <;> rfl

theorem addNumStuckChunks_Health (md : SiaDirMetadata) (ns : Nat) :
    (addNumStuckChunks md ns).Health = md.Health := rfl

theorem updLastHealthCheckTime_Health (md : SiaDirMetadata) (lt : Int) :
    (updLastHealthCheckTime md lt).Health = md.Health := by
  unfold updLastHealthCheckTime; split <;> rfl

theorem foldShared_Health (md : SiaDirMetadata) (fh ah sh rd : ℚ) (ns : Nat) (lt mt : Int) :
    (foldShared md fh ah sh rd ns lt mt).Health = if fh > md.Health then fh else md.Health := by
  simp only [foldShared, addNumStuckChunks_Health, updLastHealthCheckTime_Health,
    updModTime_Health, updMinRedundancy_Health, updStuckHealth_Health,
    updAggregateHealth_Health, updHealth_Health]

theorem foldFile_Health (md : SiaDirMetadata) (fm : BubbledMetadata) :
    (foldFile md fm).Health = if fm.Health > md.Health then fm.Health else md.Health := by
  simp only [foldFile, foldShared_Health]

theorem foldDir_Health (md : SiaDirMetadata) (dm : SiaDirMetadata)
    (h : 0 ≤ md.Health) : (foldDir md dm).Health = md.Health := by
  simp only [foldDir, foldShared_Health]
  split
  · next hlt =>
      exact absurd (lt_of_le_of_lt h (by simpa [zeroBubbledMetadata] using hlt))
        (lt_irrefl _)
  · rfl

/-- The per-child Go update of `metadata.Health` is a `max`. -/
theorem ite_gt_eq_max (a b : ℚ) : (if b > a then b else a) = max a b := by
  rcases le_or_lt b a with h | h
  · rw [if_neg (not_lt.mpr h), max_eq_left h]
  · rw [if_pos h, max_eq_right h.le]

theorem foldFile_Health_nonneg (md : SiaDirMetadata) (fm : BubbledMetadata)
    (h : 0 ≤ md.Health) : 0 ≤ (foldFile md fm).Health := by
  rw [foldFile_Health]
  split
  · next hlt => exact le_of_lt (lt_of_le_of_lt h hlt)
  · exact h

theorem calcLoop_Health (es : List DirEntry) :
    ∀ (i : Nat) (md : SiaDirMetadata), 0 ≤ md.Health →
      ∀ md2, calcLoop none i md es = CalcOutcome.completed md2 →
        md2.Health = List.foldl max md.Health (probedFileHealths es) := by
  induction es with
  | nil =>
      intro i md _ md2 hc
      simp only [calcLoop] at hc
      cases hc
      simp [probedFileHealths]
  | cons e rest ih =>
      intro i md hmd md2 hc
      cases e with
      | siaFile o =>
          cases o with
          | none =>
              simp only [calcLoop, stopFired] at hc
              simpa [probedFileHealths] using ih (i + 1) md hmd md2 hc
          | some fm =>
              simp only [calcLoop, stopFired] at hc
              have := ih (i + 1) (foldFile md fm) (foldFile_Health_nonneg md fm hmd) md2 hc
              rw [this, foldFile_Health, ite_gt_eq_max]
              simp [probedFileHealths, List.foldl]
      | subDir o =>
          cases o with
          | none => simp [calcLoop, stopFired] at hc
          | some dm =>
              simp only [calcLoop, stopFired] at hc
              have := ih (i + 1) (foldDir md dm)
                (by rw [foldDir_Health md dm hmd]; exact hmd) md2 hc
              rw [this, foldDir_Health md dm hmd]
              simp [probedFileHealths]
      | other =>
          simp only [calcLoop, stopFired] at hc
          simpa [probedFileHealths] using ih (i + 1) md hmd md2 hc

theorem calcLoop_early_err (es : List DirEntry) :
    ∀ (i : Nat) (md md2 : SiaDirMetadata) (e : Option CalcErr),
      calcLoop none i md es = CalcOutcome.earlyReturn md2 e →
      md2 = zeroSiaDirMetadata ∧ e = some CalcErr.subDirFailed := by
  induction es with
  | nil => intro i md md2 e hc; simp [calcLoop] at hc
  | cons en rest ih =>
      intro i md md2 e hc
      cases en with
      | siaFile o =>
          cases o with
          | none => simp only [calcLoop, stopFired] at hc; exact ih _ _ _ _ hc
          | some fm => simp only [calcLoop, stopFired] at hc; exact ih _ _ _ _ hc
      | subDir o =>
          cases o with
          | none =>
              simp only [calcLoop, stopFired] at hc
              cases hc
              exact ⟨rfl, rfl⟩
          | some dm => simp only [calcLoop, stopFired] at hc; exact ih _ _ _ _ hc
      | other => simp only [calcLoop, stopFired] at hc; exact ih _ _ _ _ hc

theorem calc_success_completed (now : Int) (es : List DirEntry)
    (hs : (managedCalculateDirectoryMetadata now (some es) none).2 = none) :
    ∃ md2, calcLoop none 0 (defaultCalcMetadata now) es = CalcOutcome.completed md2 := by
  rcases hc : calcLoop none 0 (defaultCalcMetadata now) es with md2 | ⟨md2, e⟩
  · exact ⟨md2, rfl⟩
  · exfalso
    have he := calcLoop_early_err es 0 _ _ _ hc
    simp [managedCalculateDirectoryMetadata, hc, he.2] at hs

theorem calcLoop_index_irrelevant (es : List DirEntry) :
    ∀ (i j : Nat) (md : SiaDirMetadata), calcLoop none i md es = calcLoop none j md es := by
  induction es with
  | nil => intro i j md; rfl
  | cons e rest ih =>
      intro i j md
      cases e with
      | siaFile o =>
          cases o with
          | none => simpa [calcLoop, stopFired] using ih (i + 1) (j + 1) md
          | some fm => simpa [calcLoop, stopFired] using ih (i + 1) (j + 1) (foldFile md fm)
      | subDir o =>
          cases o with
          | none => rfl
          | some dm => simpa [calcLoop, stopFired] using ih (i + 1) (j + 1) (foldDir md dm)
      | other => simpa [calcLoop, stopFired] using ih (i + 1) (j + 1) md

theorem calcLoop_skip_failed_file (es1 : List DirEntry) :
    ∀ (es2 : List DirEntry) (i : Nat) (md : SiaDirMetadata),
      calcLoop none i md (es1 ++ DirEntry.siaFile none :: es2)
        = calcLoop none i md (es1 ++ es2) := by
  induction es1 with
  | nil =>
      intro es2 i md
      simp only [List.nil_append, calcLoop, stopFired]
      exact calcLoop_index_irrelevant es2 (i + 1) i md
  | cons e rest ih =>
      intro es2 i md
      cases e with
      | siaFile o =>
          cases o with
          | none => simpa [calcLoop, stopFired] using ih es2 (i + 1) md
          | some fm => simpa [calcLoop, stopFired] using ih es2 (i + 1) (foldFile md fm)
      | subDir o =>
          cases o with
          | none => rfl
          | some dm => simpa [calcLoop, stopFired] using ih es2 (i + 1) (foldDir md dm)
      | other => simpa [calcLoop, stopFired] using ih es2 (i + 1) md

theorem calcLoop_subdir_abort (es1 : List DirEntry) :
    ∀ (es2 : List DirEntry) (i : Nat) (md md2 : SiaDirMetadata),
      calcLoop none i md es1 = CalcOutcome.completed md2 →
      calcLoop none i md (es1 ++ DirEntry.subDir none :: es2)
        = CalcOutcome.earlyReturn zeroSiaDirMetadata (some CalcErr.subDirFailed) := by
  induction es1 with
  | nil => intro es2 i md md2 _; rfl
  | cons e rest ih =>
      intro es2 i md md2 hc
      cases e with
      | siaFile o =>
          cases o with
          | none =>
              simp only [calcLoop, stopFired] at hc ⊢
              exact ih es2 (i + 1) md md2 hc
          | some fm =>
              simp only [calcLoop, stopFired] at hc ⊢
              exact ih es2 (i + 1) (foldFile md fm) md2 hc
      | subDir o =>
          cases o with
          | none => simp [calcLoop, stopFired] at hc
          | some dm =>
              simp only [calcLoop, stopFired] at hc ⊢
              exact ih es2 (i + 1) (foldDir md dm) md2 hc
      | other =>
          simp only [calcLoop, stopFired] at hc ⊢
          exact ih es2 (i + 1) md md2 hc

/-! ## Claim theorems: calculator -/

/-- C2, code-bug evidence: on a successful calculation over a single sia-file
child whose probe reports 3 stuck chunks, the returned `NumStuckChunks` is 6,
not 3 — the loop body accumulates each child's count twice (source lines 172
and 178), where the spec mandates single accumulation. -/
theorem c2_num_stuck_chunks_double_counted :
    (managedCalculateDirectoryMetadata 5
        (some [DirEntry.siaFile (some ⟨mkRat 1 2, 3, 2, 3, 1, 1024, 0⟩)]) none).1.NumStuckChunks
      = 6
  ∧ (managedCalculateDirectoryMetadata 5
        (some [DirEntry.siaFile (some ⟨mkRat 1 2, 3, 2, 3, 1, 1024, 0⟩)]) none).2
      = none := by decide

/-- C4, code-bug evidence: when the shutdown signal has fired as the second
child entry is about to be processed, `managedCalculateDirectoryMetadata`
returns the zero `siadir.Metadata` value — not the partially-accumulated
metadata — together with a nil error (the returned `err` variable is the nil
result of the earlier `ioutil.ReadDir`), where the claim requires the partial
value and a non-nil error. -/
theorem c4_shutdown_returns_zero_value_and_nil_error :
    managedCalculateDirectoryMetadata 5
        (some [DirEntry.siaFile (some ⟨mkRat 1 2, 3, 2, 3, 1, 1024, 0⟩),
               DirEntry.siaFile (some ⟨mkRat 3 4, 4, 3, 2, 2, 2048, 0⟩)]) (some 1)
      = (zeroSiaDirMetadata, none) := by decide

/-- C7: on a successful calculation, the `Health` field of the returned
metadata is the maximum of `DefaultDirHealth` and the healths of the
successfully probed file children only; subdirectory children never raise
it (their healths do not appear in the right-hand side). -/
theorem c7_health_from_file_children_only (now : Int) (es : List DirEntry)
    (hs : (managedCalculateDirectoryMetadata now (some es) none).2 = none) :
    (managedCalculateDirectoryMetadata now (some es) none).1.Health
      = List.foldl max DefaultDirHealth (probedFileHealths es) := by
  obtain ⟨md2, hc⟩ := calc_success_completed now es hs
  have hhealth := calcLoop_Health es 0 (defaultCalcMetadata now)
    (by simp [defaultCalcMetadata, DefaultDirHealth]) md2 hc
  have hstart : (defaultCalcMetadata now).Health = DefaultDirHealth := rfl
  rw [hstart] at hhealth
  simp only [managedCalculateDirectoryMetadata, hc]
  split <;> split <;> simpa using hhealth

/-- Witness for C7 at a concrete input: one probed file child of health 1/2
and one subdirectory child of health 9 — the directory health follows the
file child only. -/
theorem c7_health_from_file_children_only_witness :
    (managedCalculateDirectoryMetadata 5
        (some [DirEntry.siaFile (some ⟨mkRat 1 2, 3, 2, 0, 1, 1024, 0⟩),
               DirEntry.subDir (some ⟨9, 1, 100, 9, 3, 2, 2, 1, 0, 0, 0⟩)]) none).1.Health
      = List.foldl max DefaultDirHealth
          (probedFileHealths
            [DirEntry.siaFile (some ⟨mkRat 1 2, 3, 2, 0, 1, 1024, 0⟩),
             DirEntry.subDir (some ⟨9, 1, 100, 9, 3, 2, 2, 1, 0, 0, 0⟩)]) :=
  c7_health_from_file_children_only 5
    [DirEntry.siaFile (some ⟨mkRat 1 2, 3, 2, 0, 1, 1024, 0⟩),
     DirEntry.subDir (some ⟨9, 1, 100, 9, 3, 2, 2, 1, 0, 0, 0⟩)] (by decide)

/-- C8: a failed per-file probe causes exactly that entry to be skipped (the
calculation over the listing with the failed file child equals the
calculation over the listing without it), whereas a failed subdirectory
metadata read aborts the whole calculation with the subdirectory error (as
soon as the entries before it processed without aborting). -/
theorem c8_per_child_failure_policy (now : Int) (es1 es2 : List DirEntry) :
    (managedCalculateDirectoryMetadata now (some (es1 ++ DirEntry.siaFile none :: es2)) none
      = managedCalculateDirectoryMetadata now (some (es1 ++ es2)) none)
  ∧ ((managedCalculateDirectoryMetadata now (some es1) none).2 = none →
      managedCalculateDirectoryMetadata now (some (es1 ++ DirEntry.subDir none :: es2)) none
        = (zeroSiaDirMetadata, some CalcErr.subDirFailed)) := by
  constructor
  · simp only [managedCalculateDirectoryMetadata]
    rw [calcLoop_skip_failed_file es1 es2 0 (defaultCalcMetadata now)]
  · intro hs
    obtain ⟨md2, hc⟩ := calc_success_completed now es1 hs
    simp only [managedCalculateDirectoryMetadata]
    rw [calcLoop_subdir_abort es1 es2 0 (defaultCalcMetadata now) md2 hc]

/-- Witness for C8 at a concrete input: a healthy prefix followed by a failed
subdirectory read aborts with the subdirectory error. -/
theorem c8_per_child_failure_policy_witness :
    managedCalculateDirectoryMetadata 5
        (some ([DirEntry.siaFile (some ⟨mkRat 1 2, 3, 2, 0, 1, 1024, 0⟩)]
          ++ DirEntry.subDir none :: [])) none
      = (zeroSiaDirMetadata, some CalcErr.subDirFailed) :=
  (c8_per_child_failure_policy 5
      [DirEntry.siaFile (some ⟨mkRat 1 2, 3, 2, 0, 1, 1024, 0⟩)] []).2 (by decide)

/-! ## Claim theorems: directory metadata read -/

/-- C9: in `managedDirectoryMetadata`, when the metadata record is absent
(`os.IsNotExist` on open), an empty non-root directory fails with the
original absent-error without materializing a record, while the root or a
non-empty directory gets a fresh record with the directory store's default
metadata, whose stored metadata is returned. -/
theorem c9_absent_record_policy (env : DirMetaEnv) (n : Nat)
    (hstat : env.stat = StatResult.isDir)
    (hopen : env.openRes = OpenDirResult.notExist)
    (hread : env.readDirLen = some n) :
    ((n = 0 ∧ env.isRoot = false) →
        managedDirectoryMetadata env =
          ⟨zeroSiaDirMetadata, false, some DirMetaErr.absent⟩)
  ∧ (∀ fresh, (env.isRoot = true ∨ n ≠ 0) → env.newDir = some fresh →
        managedDirectoryMetadata env = ⟨fresh, true, none⟩) := by
  constructor
  · intro h
    simp [managedDirectoryMetadata, hstat, hopen, hread, h]
  · intro fresh h hnew
    have hcond : ¬(n = 0 ∧ env.isRoot = false) := by
      rcases h with h | h
      · simp [h]
      · simp [h]
    simp [managedDirectoryMetadata, hstat, hopen, hread, hcond, hnew]

/-- Witness for C9 at a concrete input: absent record, empty listing,
non-root — the absent-error is surfaced and nothing is created. -/
theorem c9_absent_record_policy_witness :
    managedDirectoryMetadata
        ⟨StatResult.isDir, OpenDirResult.notExist, some 0, none, false⟩
      = ⟨zeroSiaDirMetadata, false, some DirMetaErr.absent⟩ :=
  (c9_absent_record_policy
      ⟨StatResult.isDir, OpenDirResult.notExist, some 0, none, false⟩ 0
      rfl rfl rfl).1 (by decide)

/-! ## Claim theorems: bubble driver -/

/-- C1, counterexample: in an admitted driver run on the root whose
directory-metadata calculation fails (here: the `ReadDir` enumeration
fails), the error is returned immediately — contrary to the claim, the
directory record is not opened (hence not written) and the repair-needed and
stuck-chunk signal checks are never evaluated. -/
theorem c1_counterexample :
    (managedBubbleMetadata ⟨5, none, none, true, true, true, true, true⟩
        (fun _ => none) []).admitted = true
  ∧ (managedBubbleMetadata ⟨5, none, none, true, true, true, true, true⟩
        (fun _ => none) []).openAttempted = false
  ∧ (managedBubbleMetadata ⟨5, none, none, true, true, true, true, true⟩
        (fun _ => none) []).signalsEvaluated = false
  ∧ (managedBubbleMetadata ⟨5, none, none, true, true, true, true, true⟩
        (fun _ => none) []).err
      = some (DriverErr.calcErr CalcErr.readDirFailed) := by decide

/-- C1, amended: in an admitted driver run, a calculation error is attached
with directory context and returned immediately — the record open / write and
the root signal checks are skipped; only when the calculation succeeds are
the record opened and written, and the root signal checks evaluated against
the computed metadata, errors of the open / write steps being retained
without short-circuiting them. -/
theorem c1_calc_error_short_circuits (env : DriverEnv) (m : BubbleMap) (p : SiaPath)
    (hadm : (managedBubbleNeeded m p).needed = true) :
    (∀ ce, (managedCalculateDirectoryMetadata env.now env.entries env.stopAt).2 = some ce →
        (managedBubbleMetadata env m p).err = some (DriverErr.calcErr ce)
      ∧ (managedBubbleMetadata env m p).openAttempted = false
      ∧ (managedBubbleMetadata env m p).signalsEvaluated = false)
  ∧ ((managedCalculateDirectoryMetadata env.now env.entries env.stopAt).2 = none →
        (managedBubbleMetadata env m p).openAttempted = true
      ∧ (managedBubbleMetadata env m p).signalsEvaluated = true
      ∧ (managedBubbleMetadata env m p).updateAttempted = env.openOk
      ∧ (managedBubbleMetadata env m p).repairSignaled
          = (p.IsRoot
              && decide ((managedCalculateDirectoryMetadata env.now env.entries env.stopAt).1.AggregateHealth
                    ≥ RemoteRepairDownloadThreshold)
              && env.repairChanReady)
      ∧ (managedBubbleMetadata env m p).stuckSignaled
          = (p.IsRoot
              && decide ((managedCalculateDirectoryMetadata env.now env.entries env.stopAt).1.NumStuckChunks > 0)
              && env.stuckChanReady)
      ∧ (env.openOk = false →
          (managedBubbleMetadata env m p).err = some DriverErr.openErr)
      ∧ (env.openOk = true → env.updateOk = false →
          (managedBubbleMetadata env m p).err = some DriverErr.updateErr)) := by
  have herr := needed_err_of_true m p hadm
  constructor
  · intro ce hce
    simp [managedBubbleMetadata, hadm, herr, hce]
  · intro hok
    rcases ho : env.openOk with _ | _ <;> rcases hu : env.updateOk with _ | _ <;>
      simp [managedBubbleMetadata, hadm, herr, hok, ho, hu]

/-- Witness for the amended C1 at a concrete input: an admitted run whose
enumeration fails returns the calculation error without opening the record
or evaluating the signals. -/
theorem c1_calc_error_short_circuits_witness :
    (managedBubbleMetadata ⟨7, none, none, true, true, true, true, true⟩
        (fun _ => none) ["a"]).err = some (DriverErr.calcErr CalcErr.readDirFailed)
  ∧ (managedBubbleMetadata ⟨7, none, none, true, true, true, true, true⟩
        (fun _ => none) ["a"]).openAttempted = false
  ∧ (managedBubbleMetadata ⟨7, none, none, true, true, true, true, true⟩
        (fun _ => none) ["a"]).signalsEvaluated = false :=
  (c1_calc_error_short_circuits ⟨7, none, none, true, true, true, true, true⟩
      (fun _ => none) ["a"] (by decide)).1 CalcErr.readDirFailed (by decide)

/-- C5, counterexample: an admitted driver run on a non-root path in which
the deferred `managedCompleteBubbleUpdate` fails (here: its
`saveBubbleUpdates` persistence fails) runs the completion but does not
schedule the parent bubble — contrary to the claim that parent-scheduling
happens regardless of errors. -/
theorem c5_counterexample :
    (managedBubbleMetadata ⟨5, some [], none, true, true, false, true, true⟩
        (fun _ => none) ["a"]).admitted = true
  ∧ (managedBubbleMetadata ⟨5, some [], none, true, true, false, true, true⟩
        (fun _ => none) ["a"]).completeCalled = true
  ∧ (managedBubbleMetadata ⟨5, some [], none, true, true, false, true, true⟩
        (fun _ => none) ["a"]).scheduledParent = none := by decide

/-- C5, amended: in every admitted driver run the deferred
`managedCompleteBubbleUpdate` is invoked on exit regardless of calculation /
open / write errors, and — provided that completion call returns no error —
a bubble of the parent directory is scheduled exactly once unless the path is
the root; a completion failure suppresses the parent scheduling. -/
theorem c5_deferred_completion_and_parent (env : DriverEnv) (m : BubbleMap) (p : SiaPath)
    (hadm : (managedBubbleNeeded m p).needed = true) :
    (managedBubbleMetadata env m p).completeCalled = true
  ∧ (managedBubbleMetadata env m p).completeErr
      = (managedCompleteBubbleUpdate env.saveOk (managedBubbleNeeded m p).map p).err
  ∧ ((managedBubbleMetadata env m p).completeErr = none →
      (managedBubbleMetadata env m p).scheduledParent
        = (if p.IsRoot then none else some p.Dir))
  ∧ ((managedBubbleMetadata env m p).completeErr ≠ none →
      (managedBubbleMetadata env m p).scheduledParent = none) := by
  have herr := needed_err_of_true m p hadm
  rcases hc : (managedCalculateDirectoryMetadata env.now env.entries env.stopAt).2 with _ | ce
  · refine ⟨?_, ?_, ?_, ?_⟩ <;>
      simp [managedBubbleMetadata, hadm, herr, hc] <;>
      rcases hcr : (managedCompleteBubbleUpdate env.saveOk (managedBubbleNeeded m p).map p).err
        with _ | cerr <;>
      rcases hr : p.IsRoot with _ | _ <;> simp_all
  · refine ⟨?_, ?_, ?_, ?_⟩ <;>
      simp [managedBubbleMetadata, hadm, herr, hc] <;>
      rcases hcr : (managedCompleteBubbleUpdate env.saveOk (managedBubbleNeeded m p).map p).err
        with _ | cerr <;>
      rcases hr : p.IsRoot with _ | _ <;> simp_all

/-- Witness for the amended C5 at a concrete input: a successful run on a
non-root path completes and schedules the parent. -/
theorem c5_deferred_completion_and_parent_witness :
    (managedBubbleMetadata ⟨5, some [], none, true, true, true, true, true⟩
        (fun _ => none) ["a"]).completeCalled = true :=
  (c5_deferred_completion_and_parent ⟨5, some [], none, true, true, true, true, true⟩
      (fun _ => none) ["a"] (by decide)).1

end Sia
